import Mathlib

/-!
Shallow embedding of the analysis-run orchestrator in
src/packages/hint/src/lib/cli/analyze.ts (the webhint CLI analyze command).

External collaborators (the analyzer-construction boundary createAnalyzer, the
interactive prompt askQuestion, the package installer installPackages, the
persistent configStore, the telemetry client appInsights, the config loader
getUserConfig, mergeEnvWithOptions and the OS locale) are modelled as explicit
environment parameters; every observable side effect of the orchestrator is
recorded in an explicit trace of events. Promise rejections (thrown errors) are
modelled with Except and with explicit error results. Since the recovery
recursion of getAnalyzer is not structurally bounded in the source, the model
takes a fuel argument; a result of outOfFuel for every fuel value means the
source recursion never returns.
-/

namespace Webhint

/-- Severity of a finding, from the Severity enum of the problems module. Only
equality with error matters to the orchestrator. -/
inductive Severity
  | off
  | warning
  | error
  | hint
  | information
deriving DecidableEq, Repr

/-- One finding reported for a target (Problem in the source). -/
structure Problem where
  message : String := ""
  severity : Severity
deriving DecidableEq, Repr

/-- Line 407: a list of reports has an error when some report has severity error. -/
def hasError (reports : List Problem) : Bool :=
  reports.any fun result => result.severity == Severity.error

/-- A target URL as produced by getAsUris: its URL string (the identity key of
the progress map) and whether its protocol is the file scheme. -/
structure Target where
  url : String
  protocolIsFile : Bool
deriving DecidableEq, Repr

/-- Line 176: every target has the file protocol. -/
def areFiles (targets : List Target) : Bool :=
  targets.all fun target => target.protocolIsFile

/-- Line 182: some target has the file protocol. -/
def anyFile (targets : List Target) : Bool :=
  targets.any fun target => target.protocolIsFile

/-- A normalized hint configuration entry: either a plain severity string, or a
severity paired with user-supplied options (the options payload is kept as an
uninterpreted string). -/
inductive HintValue
  | only (severity : String)
  | withOptions (severity : String) (options : String)
deriving DecidableEq, Repr

/-- Connector configuration object ConnectorConfig: a name plus user options. -/
structure ConnectorConfig where
  name : String
  options : String := ""
deriving DecidableEq, Repr

/-- The connector field of a user configuration is either a plain string or a
ConnectorConfig object. -/
inductive ConnectorSetting
  | str (s : String)
  | cfg (c : ConnectorConfig)
deriving DecidableEq, Repr

/-- The fields of UserConfig that analyze.ts reads. The TS field named with the
reserved word for presets is rendered extendsList here. The hints field is kept
in the normalized form (hint id paired with severity or severity plus options). -/
structure UserConfig where
  extendsList : Option (List String) := none
  connector : Option ConnectorSetting := none
  formatters : Option (List String) := none
  hints : Option (List (String × HintValue)) := none
  hintsTimeout : Option Nat := none
  language : Option String := none
  parsers : Option (List String) := none
  browserslist : Option (List String) := none
deriving DecidableEq, Repr

/-- The empty user configuration (all fields absent). -/
def emptyConfig : UserConfig := {}

/-- What ends up in the connector slot of the telemetry payload: either a string
(the connector name) or, through the fallback of line 97, a whole connector
object. -/
inductive ConnectorPayload
  | str (s : String)
  | obj (c : ConnectorConfig)
deriving DecidableEq, Repr

/-- Line 97: userConfig.connector ? (connector.name or-else connector) :
undefined, with JS truthiness (an empty string is falsy). -/
def connectorForTelemetry : Option ConnectorSetting → Option ConnectorPayload
  | none => none
  | some (.str s) => if s = "" then none else some (.str s)
  | some (.cfg c) => some (if c.name = "" then .obj c else .str c.name)

/-- The object built by pruneUserConfig (lines 94 to 105). -/
structure PrunedConfig where
  browserslist : Option (List String)
  connector : Option ConnectorPayload
  extendsList : Option (List String)
  formatters : Option (List String)
  hints : Option (List (String × String))
  hintsTimeout : Option Nat
  language : Option String
  parsers : Option (List String)
deriving DecidableEq, Repr

/-- Modelled from the spec: getHintsFromConfiguration and normalizeHints live in
the external package of shared utilities, not under src. Per the spec they turn
the configuration into a normalized hint-id to severity-or-pair map; this model
keeps the hints field of UserConfig already in that normalized form, so the
composition of the two returns the hints field itself. -/
def getHintsFromConfiguration (userConfig : UserConfig) :
    Option (List (String × HintValue)) :=
  userConfig.hints

/-- Line 88: typeof severity is string ? severity : severity[0]. -/
def hintValueSeverity : HintValue → String
  | .only s => s
  | .withOptions s _ => s

/-- Lines 79 to 92: keep for each hint id only its severity, dropping options;
null input gives null. -/
def getHintsForTelemetry : Option (List (String × HintValue)) →
    Option (List (String × String))
  | none => none
  | some hs => some (hs.map fun p => (p.1, hintValueSeverity p.2))

/-- Lines 94 to 105: the pruned projection of the configuration sent with the
cli-analyze telemetry event. -/
def pruneUserConfig (userConfig : UserConfig) : PrunedConfig :=
  { browserslist := userConfig.browserslist
    connector := connectorForTelemetry userConfig.connector
    extendsList := userConfig.extendsList
    formatters := userConfig.formatters
    hints := getHintsForTelemetry (getHintsFromConfiguration userConfig)
    hintsTimeout := userConfig.hintsTimeout
    language := userConfig.language
    parsers := userConfig.parsers }

/-- Observable side effects of the orchestrator, in program order. -/
inductive Event
  | showDefaultMessage
  | choosePreset (ext : String)
  | promptDefaultConfig
  | promptInstall
  | installPackagesCall (packages : List String)
  | trackEvent (name : String)
  | trackAnalyze (ci : Bool) (previouslyRun : Bool) (payload : PrunedConfig)
  | attemptCreate (config : UserConfig)
  | logHintError (invalidHints : List String)
  | logConnectorError
  | logUnknownError
  | spinnerStart
  | spinnerFail
  | spinnerSucceed
  | printReport (url : String) (scanTime : Int) (dateStart : Nat)
  | showTelemetryMessage
  | showCITelemetryMessage
  | promptTelemetry
  | appInsightsEnable
  | appInsightsDisable
  | storeSetAlreadyRun (value : Bool)
  | telemetryGate
deriving DecidableEq, Repr

/-- Discriminant of an AnalyzerError (enums/error-status). Unknown stands for
any thrown value that carries none of the four statuses. -/
inductive AnalyzerErrorStatus
  | ConfigurationError
  | ResourceError
  | HintError
  | ConnectorError
  | Unknown
deriving DecidableEq, Repr

/-- HintResources: missing and incompatible package names. -/
structure HintResources where
  missing : List String
  incompatible : List String
deriving DecidableEq, Repr

/-- An AnalyzerError thrown by createAnalyzer: a status plus the payload the
relevant branch of getAnalyzer reads. -/
structure AnalyzerError where
  status : AnalyzerErrorStatus
  resources : HintResources := ⟨[], []⟩
  invalidHints : List String := []
deriving DecidableEq, Repr

/-- An exception escaping a phase of the run: either the mixed-targets usage
error thrown by getDefaultConfiguration (line 198) or a rethrown AnalyzerError. -/
inductive RunError
  | mixedTargets
  | analyzer (e : AnalyzerError)
deriving DecidableEq, Repr

/-- Lines 192 to 209: print the default message; reject mixed file and non-file
targets; otherwise extend the development preset when every target is a file and
the web-recommended preset otherwise, forcing html and stylish formatters under
CI. -/
def getDefaultConfiguration (isCI : Bool) (targets : List Target) :
    Except RunError UserConfig × List Event :=
  let targetsAreFiles := areFiles targets
  if !targetsAreFiles && anyFile targets then
    (.error .mixedTargets, [.showDefaultMessage])
  else
    let ext := if targetsAreFiles then "development" else "web-recommended"
    let config : UserConfig :=
      { extendsList := some [ext]
        formatters := if isCI then some ["html", "stylish"] else none }
    (.ok config, [.showDefaultMessage, .choosePreset ext])

/-- CLI options of the analyze command that this slice reads; targets is the
result of getAsUris over the positional arguments. -/
structure CLIOptions where
  targets : List Target
  language : Option String := none
  debug : Bool := false
  output : Option String := none
deriving DecidableEq, Repr

/-- JS truthiness of an optional string: undefined and the empty string are
falsy. -/
def truthyStr : Option String → Option String
  | none => none
  | some s => if s = "" then none else some s

/-- Lines 248 to 266: the explicit CLI language flag wins, then the language of
the user configuration, then the OS locale. -/
def getLanguage (osLanguage : String) (userConfig : Option UserConfig)
    (actions : Option CLIOptions) : String :=
  match truthyStr (actions.bind fun a => a.language) with
  | some l => l
  | none =>
    match truthyStr (userConfig.bind fun uc => uc.language) with
    | some l => l
    | none => osLanguage

/-- Boundary inputs of configuration resolution: the parsed user configuration
file if one was found (getUserConfig), the environment-variable merge from the
shared utilities, and the OS locale. -/
structure ConfigEnv where
  storedUserConfig : Option UserConfig
  mergeEnvWithOptions : UserConfig → UserConfig
  osLanguage : String

/-- Lines 268 to 279: use the stored configuration when present, otherwise
synthesize the default; then resolve the language and apply environment
overrides. A thrown mixed-targets error propagates. -/
def loadUserConfig (env : ConfigEnv) (isCI : Bool) (actions : CLIOptions)
    (targets : List Target) : Except RunError UserConfig × List Event :=
  let loaded :=
    match env.storedUserConfig with
    | some uc => (Except.ok uc, ([] : List Event))
    | none => getDefaultConfiguration isCI targets
  match loaded.1 with
  | .error e => (.error e, loaded.2)
  | .ok uc =>
    let uc2 := { uc with
      language := some (getLanguage env.osLanguage (some uc) (some actions)) }
    (.ok (env.mergeEnvWithOptions uc2), loaded.2)

/-- Boundary inputs of the bootstrap state machine, indexed by the attempt
number: the outcome of createAnalyzer (none is success, some e a thrown
AnalyzerError), the answers of the two interactive questions, and the result of
installPackages on a given package list. -/
structure BootEnv where
  create : Nat → UserConfig → Option AnalyzerError
  answerDefaultConfig : Nat → Bool
  answerInstall : Nat → Bool
  installResult : Nat → List String → Bool

/-- Line 290: missing packages are installed under the hint scope. -/
def missingPackages (resources : HintResources) : List String :=
  resources.missing.map fun name => "@hint/" ++ name

/-- Line 294: incompatible packages are forced to their latest version. -/
def incompatiblePackages (resources : HintResources) : List String :=
  resources.incompatible.map fun name => "@hint/" ++ name ++ "@latest"

/-- Lines 281 to 309: emit the telemetry counts, ask once whether to install,
then install the missing packages and, only if that succeeded, the incompatible
ones; the and-chain of line 299 short-circuits, so a refusal attempts no install
and a failed first install skips the second. -/
def askToInstallPackages (env : BootEnv) (k : Nat) (resources : HintResources) :
    Bool × List Event :=
  let telTrace :=
    (if resources.missing.length > 0
      then [Event.trackEvent "cli-missing"] else []) ++
    (if resources.incompatible.length > 0
      then [Event.trackEvent "cli-incompatible"] else [])
  let miss := missingPackages resources
  let incomp := incompatiblePackages resources
  if env.answerInstall k then
    if env.installResult k miss then
      if env.installResult k incomp then
        (true, telTrace ++
          [.promptInstall, .installPackagesCall miss, .installPackagesCall incomp])
      else
        (false, telTrace ++
          [.promptInstall, .installPackagesCall miss, .installPackagesCall incomp])
    else
      (false, telTrace ++ [.promptInstall, .installPackagesCall miss])
  else
    (false, telTrace ++ [.promptInstall])

/-- Result of the bootstrap state machine: a ready analyzer (identified by the
configuration it was built from), a thrown error, or fuel exhaustion (the model
artifact standing for a recursion that has not returned yet). -/
inductive BootResult
  | ready (config : UserConfig)
  | errored (e : RunError)
  | outOfFuel
deriving DecidableEq, Repr

/-- Lines 311 to 361: try to create the analyzer; on ConfigurationError ask
whether to substitute the default configuration and recurse with it when
accepted; on ResourceError run the install recovery and recurse with the same
configuration when it succeeded; on HintError, ConnectorError or anything else
log and rethrow. The source recursion carries no bound, hence the fuel. -/
def getAnalyzer (env : BootEnv) (isCI : Bool) (targets : List Target) :
    Nat → Nat → UserConfig → BootResult × List Event
  | 0, _, _ => (.outOfFuel, [])
  | fuel + 1, k, userConfig =>
    match env.create k userConfig with
    | none => (.ready userConfig, [.attemptCreate userConfig])
    | some e =>
      match e.status with
      | .ConfigurationError =>
        if env.answerDefaultConfig k then
          match getDefaultConfiguration isCI targets with
          | (.error err, tr) =>
            (.errored err, .attemptCreate userConfig :: .promptDefaultConfig :: tr)
          | (.ok config, tr) =>
            let next := getAnalyzer env isCI targets fuel (k + 1) config
            (next.1,
              .attemptCreate userConfig :: .promptDefaultConfig :: (tr ++ next.2))
        else
          (.errored (.analyzer e),
            [.attemptCreate userConfig, .promptDefaultConfig])
      | .ResourceError =>
        let ask := askToInstallPackages env k e.resources
        if ask.1 then
          let next := getAnalyzer env isCI targets fuel (k + 1) userConfig
          (next.1, .attemptCreate userConfig :: (ask.2 ++ next.2))
        else
          (.errored (.analyzer e), .attemptCreate userConfig :: ask.2)
      | .HintError =>
        (.errored (.analyzer e),
          [.attemptCreate userConfig, .logHintError e.invalidHints])
      | .ConnectorError =>
        (.errored (.analyzer e), [.attemptCreate userConfig, .logConnectorError])
      | .Unknown =>
        (.errored (.analyzer e), [.attemptCreate userConfig, .logUnknownError])

/-- State of the Run and Progress Reporter: the per-target start-time map keyed
by the URL string (line 426) and the exit code. -/
structure ReporterState where
  scanStart : String → Option Nat
  exitCode : Nat

/-- The reporter state at the beginning of a run: empty map, exit code zero. -/
def initialReporterState : ReporterState :=
  { scanStart := fun _ => none, exitCode := 0 }

/-- Lines 440 to 445: start the spinner (unless in debug mode) and record the
start timestamp of this target under its URL. -/
def targetStartCallback (debugMode : Bool) (st : ReporterState) (url : String)
    (now : Nat) : ReporterState × List Event :=
  ({ st with scanStart := fun u => if u = url then some now else st.scanStart u },
    if debugMode then [] else [.spinnerStart])

/-- Lines 446 to 457: look up the start time of this target (zero when absent),
raise the exit code on an error-severity finding, settle the spinner and print
the report with the elapsed time and the start date. -/
def targetEndCallback (debugMode : Bool) (st : ReporterState) (url : String)
    (now : Nat) (problems : List Problem) : ReporterState × List Event :=
  let startTime := (st.scanStart url).getD 0
  let exitCode := if hasError problems then 1 else st.exitCode
  ({ st with exitCode := exitCode },
    (if debugMode then []
      else if exitCode != 0 then [Event.spinnerFail] else [Event.spinnerSucceed]) ++
    [.printReport url ((now : Int) - (startTime : Int)) startTime])

/-- One callback invocation delivered by the engine during webhint.analyze. -/
inductive TargetEvent
  | startTarget (url : String) (time : Nat)
  | endTarget (url : String) (time : Nat) (problems : List Problem)
deriving DecidableEq, Repr

/-- True for an end event whose findings contain an error severity. -/
def targetEventHasError : TargetEvent → Bool
  | .startTarget _ _ => false
  | .endTarget _ _ problems => hasError problems

/-- Dispatch one callback invocation to the matching reporter callback. -/
def processTargetEvent (debugMode : Bool) (st : ReporterState) :
    TargetEvent → ReporterState × List Event
  | .startTarget url t => targetStartCallback debugMode st url t
  | .endTarget url t problems => targetEndCallback debugMode st url t problems

/-- Fold the reporter callbacks over the callback invocations of one run. -/
def runReporter (debugMode : Bool) :
    ReporterState → List TargetEvent → ReporterState × List Event
  | st, [] => (st, [])
  | st, ev :: rest =>
    let step := processTargetEvent debugMode st ev
    let tail := runReporter debugMode step.1 rest
    (tail.1, step.2 ++ tail.2)

/-- The persistent key-value store as the orchestrator sees it: the value under
the run key (false when never written, matching JS undefined falsiness). -/
structure ConfigStore where
  alreadyRun : Bool
deriving DecidableEq, Repr

/-- Boundary inputs of the Telemetry Gate: whether appInsights is configured and
enabled, and the answer to the opt-in question. -/
structure TelemetryEnv where
  configured : Bool
  enabled : Bool
  promptAnswer : Bool

/-- Lines 126 to 158: read the first-run marker and set it when unset; when no
consent was ever recorded show the CI notice under CI, or prompt only when this
is not the first run; finally emit the cli-analyze event with the pruned
configuration when telemetry ended up enabled. -/
def sendTelemetryIfEnabled (env : TelemetryEnv) (isCI : Bool)
    (store : ConfigStore) (userConfig : UserConfig) : ConfigStore × List Event :=
  let alreadyRun := store.alreadyRun
  let storeStep :=
    if !alreadyRun then
      (({ alreadyRun := true } : ConfigStore), [Event.storeSetAlreadyRun true])
    else (store, ([] : List Event))
  let branch :=
    if !env.configured then
      if isCI then (false, [Event.showCITelemetryMessage])
      else if alreadyRun then
        (env.promptAnswer,
          [Event.showTelemetryMessage, Event.promptTelemetry] ++
          (if env.promptAnswer then
            [Event.appInsightsEnable, Event.trackEvent "cli-telemetry"]
          else [Event.appInsightsDisable]))
      else (env.enabled, ([] : List Event))
    else (env.enabled, ([] : List Event))
  if branch.1 then
    (storeStep.1, Event.telemetryGate :: (storeStep.2 ++ branch.2 ++
      [Event.trackAnalyze isCI alreadyRun (pruneUserConfig userConfig)]))
  else
    (storeStep.1, Event.telemetryGate :: (storeStep.2 ++ branch.2))

/-- Everything the top-level analyze run depends on besides its CLI options: the
configuration boundary, the bootstrap boundary, the telemetry boundary, the CI
detection, the bootstrap fuel, the callback invocations the engine delivers
during webhint.analyze, and whether that call rejects afterwards. -/
structure RunEnv where
  config : ConfigEnv
  boot : BootEnv
  telemetry : TelemetryEnv
  isCI : Bool
  fuel : Nat
  targetEvents : List TargetEvent
  analyzeThrows : Bool

/-- Outcome of the default export: a returned boolean, an exception that escaped
it (loadUserConfig is outside every try block), or fuel exhaustion inside the
bootstrap recursion. -/
inductive RunOutcome
  | finished (success : Bool)
  | threw (e : RunError)
  | outOfFuel
deriving DecidableEq, Repr

/-- Lines 398 to 475 given a ready analyzer: drive the engine callbacks; when
webhint.analyze rejects, set the exit code, settle the spinner in the failed
state (a no-op under debug, line 402) and skip telemetry; otherwise run the
telemetry step and return whether the exit code stayed zero. -/
def runWithAnalyzer (env : RunEnv) (actions : CLIOptions) (store : ConfigStore)
    (userConfig : UserConfig) : RunOutcome × ConfigStore × List Event :=
  let rep := runReporter actions.debug initialReporterState env.targetEvents
  if env.analyzeThrows then
    (.finished false, store,
      rep.2 ++ (if actions.debug then [] else [Event.spinnerFail]))
  else
    let tel := sendTelemetryIfEnabled env.telemetry env.isCI store userConfig
    (.finished (rep.1.exitCode == 0), tel.1, rep.2 ++ tel.2)

/-- Lines 380 to 476, the default export: return false at once on zero targets;
resolve the configuration (uncaught on throw); bootstrap the analyzer, returning
false when that threw; then run the analysis and derive the exit status. -/
def analyze (env : RunEnv) (actions : CLIOptions) (store : ConfigStore) :
    RunOutcome × ConfigStore × List Event :=
  if actions.targets.length = 0 then (.finished false, store, [])
  else
    let lc := loadUserConfig env.config env.isCI actions actions.targets
    match lc.1 with
    | .error e => (.threw e, store, lc.2)
    | .ok userConfig =>
      let boot := getAnalyzer env.boot env.isCI actions.targets env.fuel 0 userConfig
      match boot.1 with
      | .outOfFuel => (.outOfFuel, store, lc.2 ++ boot.2)
      | .errored _ => (.finished false, store, lc.2 ++ boot.2)
      | .ready _ =>
        let rest := runWithAnalyzer env actions store userConfig
        (rest.1, rest.2.1, lc.2 ++ boot.2 ++ rest.2.2)

/-- True exactly for the report-printing events of the reporter. -/
def isPrintEvent : Event → Bool
  | .printReport _ _ _ => true
  | _ => false

/-- True exactly for calls of the package installer. -/
def isInstallEvent : Event → Bool
  | .installPackagesCall _ => true
  | _ => false

/-- True exactly for the observable actions of the telemetry step: its
invocation marker, the persistent-store write and the run-summary event. -/
def isRunTelemetryEvent : Event → Bool
  | .telemetryGate => true
  | .storeSetAlreadyRun _ => true
  | .trackAnalyze _ _ _ => true
  | _ => false

/-- Replace the user-supplied options of one normalized hint entry, keeping its
id and severity. -/
def setHintValueOptions (f : String → String → String) (p : String × HintValue) :
    String × HintValue :=
  match p.2 with
  | .only s => (p.1, .only s)
  | .withOptions s o => (p.1, .withOptions s (f p.1 o))

/-- Replace every hint option payload of a configuration according to f, leaving
ids, severities and every other field untouched. -/
def setHintOptions (uc : UserConfig) (f : String → String → String) : UserConfig :=
  { uc with hints := uc.hints.map fun hs => hs.map (setHintValueOptions f) }

/-- A local target. -/
def tFile : Target := ⟨"file:///site/index.html", true⟩

/-- A remote target. -/
def tWeb : Target := ⟨"https://example.com", false⟩

/-- The configuration produced by resolving the empty stored configuration with
OS locale en. -/
def ucEn : UserConfig := { language := some "en" }

/-- A store in the never-run state. -/
def store0 : ConfigStore := ⟨false⟩

/-- A store recording an earlier run. -/
def storeRun : ConfigStore := ⟨true⟩

/-- A configuration boundary that found a stored (empty) user configuration,
applies no environment overrides and reports locale en. -/
def idConfigEnv : ConfigEnv :=
  { storedUserConfig := some emptyConfig
    mergeEnvWithOptions := id
    osLanguage := "en" }

/-- A bootstrap boundary on which createAnalyzer always succeeds. -/
def okBootEnv : BootEnv :=
  { create := fun _ _ => none
    answerDefaultConfig := fun _ => false
    answerInstall := fun _ => false
    installResult := fun _ _ => true }

/-- A bootstrap boundary on which createAnalyzer throws a ConfigurationError on
every attempt and the user accepts the default-configuration prompt every time:
the failing input of the recovery-bound analysis. -/
def alwaysConfigErrorEnv : BootEnv :=
  { create := fun _ _ => some { status := .ConfigurationError }
    answerDefaultConfig := fun _ => true
    answerInstall := fun _ => false
    installResult := fun _ _ => false }

/-- A telemetry boundary with consent already recorded and telemetry disabled. -/
def quietTelemetryEnv : TelemetryEnv :=
  { configured := true, enabled := false, promptAnswer := false }

/-- A telemetry boundary with consent never recorded and a user who would accept
the opt-in prompt. -/
def promptingTelemetryEnv : TelemetryEnv :=
  { configured := false, enabled := false, promptAnswer := true }

/-- A baseline run: stored empty configuration, analyzer construction succeeds,
no engine callbacks, no rejection, telemetry configured and disabled. -/
def baseRunEnv : RunEnv :=
  { config := idConfigEnv
    boot := okBootEnv
    telemetry := quietTelemetryEnv
    isCI := false
    fuel := 1
    targetEvents := []
    analyzeThrows := false }

/-- The baseline run with one target whose findings contain an error severity. -/
def errorFindingRunEnv : RunEnv :=
  { baseRunEnv with
    targetEvents :=
      [.startTarget "https://example.com" 5,
       .endTarget "https://example.com" 9 [{ message := "x", severity := .error }]] }

/-- The baseline run on which webhint.analyze rejects. -/
def throwingRunEnv : RunEnv := { baseRunEnv with analyzeThrows := true }

/-- An AnalyzerError carrying resource information, for the install recovery. -/
def resErr : AnalyzerError :=
  { status := .ResourceError, resources := ⟨["axe"], ["css"]⟩ }

/-- A bootstrap boundary on which the first attempt throws a ResourceError and
the user refuses the install prompt. -/
def refuseInstallEnv : BootEnv :=
  { create := fun _ _ => some resErr
    answerDefaultConfig := fun _ => false
    answerInstall := fun _ => false
    installResult := fun _ _ => false }

/-- A configuration whose connector is a plain name and whose single hint
carries user-supplied options. -/
def ucC5 : UserConfig :=
  { connector := some (.str "chrome")
    hints := some [("axe", .withOptions "error" "secret-options")] }

/-- Unfolding equation: out of fuel. -/
theorem getAnalyzer_zero (env : BootEnv) (isCI : Bool) (ts : List Target)
    (k : Nat) (cfg : UserConfig) :
    getAnalyzer env isCI ts 0 k cfg = (.outOfFuel, []) := rfl

/-- Unfolding equation: createAnalyzer succeeded. -/
theorem getAnalyzer_create_ok (env : BootEnv) (isCI : Bool) (ts : List Target)
    (n k : Nat) (cfg : UserConfig) (h : env.create k cfg = none) :
    getAnalyzer env isCI ts (n + 1) k cfg = (.ready cfg, [.attemptCreate cfg]) := by
  simp only [getAnalyzer, h]

/-- Unfolding equation: a ConfigurationError with the default-configuration
prompt declined. -/
theorem getAnalyzer_config_declined (env : BootEnv) (isCI : Bool)
    (ts : List Target) (n k : Nat) (cfg : UserConfig) (e : AnalyzerError)
    (h : env.create k cfg = some e) (hs : e.status = .ConfigurationError)
    (ha : env.answerDefaultConfig k = false) :
    getAnalyzer env isCI ts (n + 1) k cfg =
      (.errored (.analyzer e), [.attemptCreate cfg, .promptDefaultConfig]) := by
  simp only [getAnalyzer, h, hs, ha, Bool.false_eq_true, if_false]

/-- Unfolding equation: a ConfigurationError, prompt accepted, but the default
synthesis itself threw (mixed targets). -/
theorem getAnalyzer_config_accepted_err (env : BootEnv) (isCI : Bool)
    (ts : List Target) (n k : Nat) (cfg : UserConfig) (e : AnalyzerError)
    (err : RunError) (tr : List Event)
    (h : env.create k cfg = some e) (hs : e.status = .ConfigurationError)
    (ha : env.answerDefaultConfig k = true)
    (hd : getDefaultConfiguration isCI ts = (.error err, tr)) :
    getAnalyzer env isCI ts (n + 1) k cfg =
      (.errored err, .attemptCreate cfg :: .promptDefaultConfig :: tr) := by
  simp only [getAnalyzer, h, hs, ha, if_true, hd]

/-- Unfolding equation: a ConfigurationError, prompt accepted, default synthesis
succeeded: retry with the substituted configuration. -/
theorem getAnalyzer_config_accepted_ok (env : BootEnv) (isCI : Bool)
    (ts : List Target) (n k : Nat) (cfg config : UserConfig) (e : AnalyzerError)
    (tr : List Event)
    (h : env.create k cfg = some e) (hs : e.status = .ConfigurationError)
    (ha : env.answerDefaultConfig k = true)
    (hd : getDefaultConfiguration isCI ts = (.ok config, tr)) :
    getAnalyzer env isCI ts (n + 1) k cfg =
      ((getAnalyzer env isCI ts n (k + 1) config).1,
        .attemptCreate cfg :: .promptDefaultConfig ::
          (tr ++ (getAnalyzer env isCI ts n (k + 1) config).2)) := by
  simp only [getAnalyzer, h, hs, ha, if_true, hd]

/-- Unfolding equation: a ResourceError whose install recovery failed (refusal
or failed install). -/
theorem getAnalyzer_resource_failed (env : BootEnv) (isCI : Bool)
    (ts : List Target) (n k : Nat) (cfg : UserConfig) (e : AnalyzerError)
    (h : env.create k cfg = some e) (hs : e.status = .ResourceError)
    (ha : (askToInstallPackages env k e.resources).1 = false) :
    getAnalyzer env isCI ts (n + 1) k cfg =
      (.errored (.analyzer e),
        .attemptCreate cfg :: (askToInstallPackages env k e.resources).2) := by
  simp only [getAnalyzer, h, hs, ha, Bool.false_eq_true, if_false]

/-- Unfolding equation: a ResourceError whose install recovery succeeded: retry
with the same configuration. -/
theorem getAnalyzer_resource_ok (env : BootEnv) (isCI : Bool)
    (ts : List Target) (n k : Nat) (cfg : UserConfig) (e : AnalyzerError)
    (h : env.create k cfg = some e) (hs : e.status = .ResourceError)
    (ha : (askToInstallPackages env k e.resources).1 = true) :
    getAnalyzer env isCI ts (n + 1) k cfg =
      ((getAnalyzer env isCI ts n (k + 1) cfg).1,
        .attemptCreate cfg ::
          ((askToInstallPackages env k e.resources).2 ++
            (getAnalyzer env isCI ts n (k + 1) cfg).2)) := by
  simp only [getAnalyzer, h, hs, ha, if_true]

/-- Unfolding equation: a HintError is fatal. -/
theorem getAnalyzer_hint_error (env : BootEnv) (isCI : Bool) (ts : List Target)
    (n k : Nat) (cfg : UserConfig) (e : AnalyzerError)
    (h : env.create k cfg = some e) (hs : e.status = .HintError) :
    getAnalyzer env isCI ts (n + 1) k cfg =
      (.errored (.analyzer e),
        [.attemptCreate cfg, .logHintError e.invalidHints]) := by
  simp only [getAnalyzer, h, hs]

/-- Unfolding equation: a ConnectorError is fatal. -/
theorem getAnalyzer_connector_error (env : BootEnv) (isCI : Bool)
    (ts : List Target) (n k : Nat) (cfg : UserConfig) (e : AnalyzerError)
    (h : env.create k cfg = some e) (hs : e.status = .ConnectorError) :
    getAnalyzer env isCI ts (n + 1) k cfg =
      (.errored (.analyzer e), [.attemptCreate cfg, .logConnectorError]) := by
  simp only [getAnalyzer, h, hs]

/-- Unfolding equation: an unclassified error is fatal. -/
theorem getAnalyzer_unknown_error (env : BootEnv) (isCI : Bool)
    (ts : List Target) (n k : Nat) (cfg : UserConfig) (e : AnalyzerError)
    (h : env.create k cfg = some e) (hs : e.status = .Unknown) :
    getAnalyzer env isCI ts (n + 1) k cfg =
      (.errored (.analyzer e), [.attemptCreate cfg, .logUnknownError]) := by
  simp only [getAnalyzer, h, hs]

/-- The exit code after the reporter fold is one exactly when some delivered end
event carried an error-severity finding (and it never resets). -/
theorem runReporter_exitCode (d : Bool) (evs : List TargetEvent) :
    ∀ st : ReporterState,
      (runReporter d st evs).1.exitCode =
        if evs.any targetEventHasError then 1 else st.exitCode := by
  induction evs with
  | nil => intro st; simp [runReporter]
  | cons ev rest ih =>
    intro st
    cases ev with
    | startTarget u t =>
      simp [runReporter, processTargetEvent, targetStartCallback,
        targetEventHasError, ih]
    | endTarget u t ps =>
      simp only [runReporter, processTargetEvent, targetEndCallback,
        List.any_cons, targetEventHasError, ih]
      by_cases h : hasError ps = true <;>
        by_cases h2 : rest.any targetEventHasError = true <;>
        simp [h, h2]

/-- The trace of default-configuration synthesis holds no telemetry-step event. -/
theorem filter_runTel_default (isCI : Bool) (ts : List Target) :
    (getDefaultConfiguration isCI ts).2.filter isRunTelemetryEvent = [] := by
  by_cases h : (!areFiles ts && anyFile ts) = true <;>
    simp [getDefaultConfiguration, h, isRunTelemetryEvent]

/-- The trace of configuration resolution holds no telemetry-step event. -/
theorem filter_runTel_load (env : ConfigEnv) (isCI : Bool) (actions : CLIOptions)
    (ts : List Target) :
    (loadUserConfig env isCI actions ts).2.filter isRunTelemetryEvent = [] := by
  unfold loadUserConfig
  cases henv : env.storedUserConfig with
  | some uc => simp
  | none =>
    simp only
    split <;> simpa using filter_runTel_default isCI ts

/-- The trace of the install recovery holds no telemetry-step event. -/
theorem filter_runTel_ask (env : BootEnv) (k : Nat) (res : HintResources) :
    (askToInstallPackages env k res).2.filter isRunTelemetryEvent = [] := by
  by_cases h1 : env.answerInstall k = true <;>
    by_cases h2 : env.installResult k (missingPackages res) = true <;>
    by_cases h3 : env.installResult k (incompatiblePackages res) = true <;>
    by_cases h4 : res.missing.length > 0 <;>
    by_cases h5 : res.incompatible.length > 0 <;>
    simp [askToInstallPackages, h1, h2, h3, h4, h5, isRunTelemetryEvent]

/-- The trace of the bootstrap state machine holds no telemetry-step event. -/
theorem filter_runTel_boot (env : BootEnv) (isCI : Bool) (ts : List Target) :
    ∀ (fuel k : Nat) (cfg : UserConfig),
      (getAnalyzer env isCI ts fuel k cfg).2.filter isRunTelemetryEvent = [] := by
  intro fuel
  induction fuel with
  | zero => intro k cfg; simp [getAnalyzer_zero]
  | succ n ih =>
    intro k cfg
    cases hc : env.create k cfg with
    | none => simp [getAnalyzer_create_ok env isCI ts n k cfg hc, isRunTelemetryEvent]
    | some e =>
      cases hs : e.status with
      | ConfigurationError =>
        by_cases ha : env.answerDefaultConfig k = true
        · cases hd : getDefaultConfiguration isCI ts with
          | mk r tr =>
            have htr : tr.filter isRunTelemetryEvent = [] := by
              have h0 := filter_runTel_default isCI ts
              rw [hd] at h0
              exact h0
            cases r with
            | error err =>
              rw [getAnalyzer_config_accepted_err env isCI ts n k cfg e err tr hc hs ha hd]
              simp [isRunTelemetryEvent, htr]
            | ok config =>
              rw [getAnalyzer_config_accepted_ok env isCI ts n k cfg config e tr hc hs ha hd]
              simp [isRunTelemetryEvent, List.filter_append, htr, ih]
        · rw [getAnalyzer_config_declined env isCI ts n k cfg e hc hs
            (Bool.not_eq_true _ ▸ ha)]
          simp [isRunTelemetryEvent]
      | ResourceError =>
        by_cases ha : (askToInstallPackages env k e.resources).1 = true
        · rw [getAnalyzer_resource_ok env isCI ts n k cfg e hc hs ha]
          simp [isRunTelemetryEvent, List.filter_append, filter_runTel_ask, ih]
        · rw [getAnalyzer_resource_failed env isCI ts n k cfg e hc hs
            (Bool.not_eq_true _ ▸ ha)]
          simp [isRunTelemetryEvent, filter_runTel_ask]
      | HintError =>
        rw [getAnalyzer_hint_error env isCI ts n k cfg e hc hs]
        simp [isRunTelemetryEvent]
      | ConnectorError =>
        rw [getAnalyzer_connector_error env isCI ts n k cfg e hc hs]
        simp [isRunTelemetryEvent]
      | Unknown =>
        rw [getAnalyzer_unknown_error env isCI ts n k cfg e hc hs]
        simp [isRunTelemetryEvent]

/-- The trace of the reporter callbacks holds no telemetry-step event. -/
theorem filter_runTel_reporter (d : Bool) (evs : List TargetEvent) :
    ∀ st : ReporterState,
      (runReporter d st evs).2.filter isRunTelemetryEvent = [] := by
  induction evs with
  | nil => intro st; simp [runReporter]
  | cons ev rest ih =>
    intro st
    cases ev with
    | startTarget u t =>
      simp [runReporter, processTargetEvent, targetStartCallback,
        List.filter_append, ih, isRunTelemetryEvent,
        apply_ite (List.filter isRunTelemetryEvent)]
    | endTarget u t ps =>
      simp only [runReporter, processTargetEvent, targetEndCallback,
        List.filter_append, ih, List.append_nil]
      by_cases hd2 : d = true <;> by_cases h : hasError ps = true <;>
        by_cases hz : st.exitCode = 0 <;>
        simp [hd2, h, hz, isRunTelemetryEvent]

/-- A list whose telemetry-step filter is empty holds no copy of a
telemetry-step event. -/
theorem count_zero_of_filter_runTel (l : List Event) (e : Event)
    (he : isRunTelemetryEvent e = true)
    (h : l.filter isRunTelemetryEvent = []) : l.count e = 0 := by
  rw [List.count_eq_zero]
  intro hmem
  have hmem2 : e ∈ l.filter isRunTelemetryEvent := List.mem_filter.mpr ⟨hmem, he⟩
  rw [h] at hmem2
  exact absurd hmem2 (List.not_mem_nil e)

/-- The telemetry step announces itself exactly once. -/
theorem count_gate_send (env : TelemetryEnv) (isCI : Bool) (store : ConfigStore)
    (uc : UserConfig) :
    (sendTelemetryIfEnabled env isCI store uc).2.count Event.telemetryGate = 1 := by
  unfold sendTelemetryIfEnabled
  by_cases h1 : store.alreadyRun = true <;>
    by_cases h2 : env.configured = true <;>
    by_cases h3 : isCI = true <;>
    by_cases h4 : env.promptAnswer = true <;>
    by_cases h5 : env.enabled = true <;>
    simp [h1, h2, h3, h4, h5, List.count_cons, List.count_append]

/-- Reduction of the default export once at least one target is present, the
configuration resolved and the bootstrap returned a ready analyzer. -/
theorem analyze_ready (env : RunEnv) (actions : CLIOptions) (store : ConfigStore)
    (uc cfg : UserConfig)
    (h1 : actions.targets.length ≠ 0)
    (h2 : (loadUserConfig env.config env.isCI actions actions.targets).1 = .ok uc)
    (h3 : (getAnalyzer env.boot env.isCI actions.targets env.fuel 0 uc).1 =
      .ready cfg) :
    analyze env actions store =
      ((runWithAnalyzer env actions store uc).1,
       (runWithAnalyzer env actions store uc).2.1,
       (loadUserConfig env.config env.isCI actions actions.targets).2 ++
         (getAnalyzer env.boot env.isCI actions.targets env.fuel 0 uc).2 ++
         (runWithAnalyzer env actions store uc).2.2) := by
  simp only [analyze, if_neg h1, h2, h3]

/-- C9: for a run invoked with zero targets, the top-level analyze operation
returns failure immediately, with the persistent store unchanged and an empty
effect trace: no configuration load, no analyzer construction, no prompt, no
telemetry and no store write. -/
theorem c9_zero_targets_fail_no_effects (env : RunEnv) (lang : Option String)
    (dbg : Bool) (outp : Option String) (store : ConfigStore) :
    analyze env { targets := [], language := lang, debug := dbg, output := outp }
        store =
      (.finished false, store, []) := rfl

/-- C7: the reporter keys start times by the URL string of the target: an end
callback always reports the elapsed time computed from the start recorded under
its own URL (zero when none was recorded), and in a run where targets a and b
start in that order and end in the order b then a, each report uses its own
start time. -/
theorem c7_per_target_timing (d : Bool) (st : ReporterState) (u : String)
    (t : Nat) (ps : List Problem) (ta tb t1 t2 : Nat) :
    ((targetEndCallback d st u t ps).2.filter isPrintEvent =
      [.printReport u ((t : Int) - (((st.scanStart u).getD 0 : Nat) : Int))
        ((st.scanStart u).getD 0)]) ∧
    ((runReporter d initialReporterState
        [.startTarget "a" ta, .startTarget "b" tb,
         .endTarget "b" t1 [], .endTarget "a" t2 []]).2.filter isPrintEvent =
      [.printReport "b" ((t1 : Int) - (tb : Int)) tb,
       .printReport "a" ((t2 : Int) - (ta : Int)) ta]) := by
  constructor
  · by_cases hd2 : d = true <;> by_cases h : hasError ps = true <;>
      by_cases hz : st.exitCode = 0 <;>
      simp [targetEndCallback, hd2, h, hz, isPrintEvent]
  · cases d <;> rfl

/-- C2 is a bug in the code: on the failing input where createAnalyzer throws a
ConfigurationError on every attempt (also with the substituted default
configuration) and the user accepts the default-configuration prompt every
time, the bootstrap recursion of getAnalyzer never reaches a ready analyzer nor
a terminal error (for every fuel value the model is still unresolved) and the
user is re-prompted on the same error kind once per attempt, without bound. -/
theorem c2_unbounded_config_recovery (fuel : Nat) :
    ∀ (k : Nat) (cfg : UserConfig),
      (getAnalyzer alwaysConfigErrorEnv false [tFile] fuel k cfg).1 =
        .outOfFuel ∧
      ((getAnalyzer alwaysConfigErrorEnv false [tFile] fuel k cfg).2.count
        Event.promptDefaultConfig) = fuel := by
  induction fuel with
  | zero => intro k cfg; simp [getAnalyzer_zero]
  | succ n ih =>
    intro k cfg
    have hc : alwaysConfigErrorEnv.create k cfg =
        some { status := .ConfigurationError } := rfl
    have hd : getDefaultConfiguration false [tFile] =
        (.ok { extendsList := some ["development"] },
          [.showDefaultMessage, .choosePreset "development"]) := rfl
    rw [getAnalyzer_config_accepted_ok alwaysConfigErrorEnv false [tFile] n k cfg
      { extendsList := some ["development"] } { status := .ConfigurationError }
      [.showDefaultMessage, .choosePreset "development"] hc rfl rfl hd]
    refine ⟨(ih (k + 1) _).1, ?_⟩
    simp [List.count_cons, List.count_append, (ih (k + 1) _).2]

/-- C4 as amended: whenever default synthesis is reached (in particular whenever
no user configuration was found), a target list mixing file and non-file
targets makes getDefaultConfiguration fail with the mixed-targets usage error,
no preset is ever chosen, and loadUserConfig propagates the error. -/
theorem c4_mixed_targets_fail_before_preset (isCI : Bool) (targets : List Target)
    (h1 : anyFile targets = true) (h2 : areFiles targets = false) :
    (getDefaultConfiguration isCI targets).1 = .error .mixedTargets ∧
    (∀ ext, Event.choosePreset ext ∉ (getDefaultConfiguration isCI targets).2) ∧
    (∀ (env : ConfigEnv) (actions : CLIOptions), env.storedUserConfig = none →
      (loadUserConfig env isCI actions targets).1 = .error .mixedTargets) := by
  have hcond : (!areFiles targets && anyFile targets) = true := by
    simp [h1, h2]
  refine ⟨?_, ?_, ?_⟩
  · simp [getDefaultConfiguration, hcond]
  · intro ext
    simp [getDefaultConfiguration, hcond]
  · intro env actions henv
    simp [loadUserConfig, henv, getDefaultConfiguration, hcond]

/-- Witness for C4: the concrete mixed list of a file target and a web target is
rejected before any preset selection. -/
theorem c4_witness :
    (getDefaultConfiguration false [tFile, tWeb]).1 = .error .mixedTargets :=
  (c4_mixed_targets_fail_before_preset false [tFile, tWeb]
    (by decide) (by decide)).1

/-- Counterexample for C4 as stated: a target list mixing a file target and a
web target does NOT make configuration resolution fail when a stored user
configuration exists; loadUserConfig returns that configuration. -/
theorem c4_counterexample :
    anyFile [tFile, tWeb] = true ∧ areFiles [tFile, tWeb] = false ∧
    (loadUserConfig idConfigEnv false { targets := [tFile, tWeb] }
        [tFile, tWeb]).1 = .ok ucEn :=
  ⟨by decide, by decide, rfl⟩

/-- C6: on a first-ever invocation (persisted first-run marker unset) the
telemetry step records the marker and never shows the interactive opt-in
prompt, whatever the consent state; and any run that does show the prompt is a
non-first run outside CI with consent never recorded. -/
theorem c6_first_run_never_prompts (env : TelemetryEnv) (isCI : Bool)
    (store : ConfigStore) (uc : UserConfig) :
    (store.alreadyRun = false →
      (sendTelemetryIfEnabled env isCI store uc).1.alreadyRun = true ∧
      Event.promptTelemetry ∉ (sendTelemetryIfEnabled env isCI store uc).2) ∧
    (Event.promptTelemetry ∈ (sendTelemetryIfEnabled env isCI store uc).2 →
      store.alreadyRun = true ∧ isCI = false ∧ env.configured = false) := by
  by_cases h1 : store.alreadyRun = true <;>
    by_cases h2 : env.configured = true <;>
    by_cases h3 : isCI = true <;>
    by_cases h4 : env.promptAnswer = true <;>
    by_cases h5 : env.enabled = true <;>
    simp [sendTelemetryIfEnabled, h1, h2, h3, h4, h5]

/-- Witness for C6: a first run with consent never recorded, outside CI, marks
the store and shows no prompt. -/
theorem c6_witness :
    (sendTelemetryIfEnabled promptingTelemetryEnv false store0
      emptyConfig).1.alreadyRun = true ∧
    Event.promptTelemetry ∉
      (sendTelemetryIfEnabled promptingTelemetryEnv false store0 emptyConfig).2 :=
  (c6_first_run_never_prompts promptingTelemetryEnv false store0 emptyConfig).1
    rfl

/-- Replacing hint options does not change the hint projection kept for
telemetry. -/
theorem getHintsForTelemetry_setOptions (f : String → String → String)
    (hs : Option (List (String × HintValue))) :
    getHintsForTelemetry (hs.map fun l => l.map (setHintValueOptions f)) =
      getHintsForTelemetry hs := by
  cases hs with
  | none => rfl
  | some l =>
    show getHintsForTelemetry (some (l.map (setHintValueOptions f))) =
      getHintsForTelemetry (some l)
    simp only [getHintsForTelemetry, List.map_map, Option.some.injEq]
    exact List.map_congr_left fun p hp => by
      cases p with
      | mk a b => cases b <;> simp [setHintValueOptions, hintValueSeverity]

/-- C5: the telemetry payload is the pruned projection only: replacing every
user-supplied hint option payload leaves the payload unchanged, the hints slot
carries exactly the hint-id to severity map, the connector slot is never a raw
connector object when connectors carry their name, and every run-summary event
emitted by the telemetry step carries exactly this pruned projection (the
payload is a function of the configuration alone, never of the targets). -/
theorem c5_telemetry_payload_pruned (uc : UserConfig)
    (f : String → String → String)
    (hconn : ∀ c, uc.connector = some (.cfg c) → c.name ≠ "") :
    pruneUserConfig (setHintOptions uc f) = pruneUserConfig uc ∧
    (pruneUserConfig uc).hints =
      uc.hints.map (fun hs => hs.map fun p => (p.1, hintValueSeverity p.2)) ∧
    (∀ c, (pruneUserConfig uc).connector ≠ some (.obj c)) ∧
    (∀ (env : TelemetryEnv) (isCI : Bool) (store : ConfigStore)
        (ci pr : Bool) (payload : PrunedConfig),
      Event.trackAnalyze ci pr payload ∈
          (sendTelemetryIfEnabled env isCI store uc).2 →
        payload = pruneUserConfig uc) := by
  refine ⟨?_, ?_, ?_, ?_⟩
  · simp [pruneUserConfig, setHintOptions, getHintsFromConfiguration,
      getHintsForTelemetry_setOptions]
  · cases hh : uc.hints <;>
      simp [pruneUserConfig, getHintsFromConfiguration, getHintsForTelemetry, hh]
  · intro c
    cases hc : uc.connector with
    | none => simp [pruneUserConfig, connectorForTelemetry, hc]
    | some s =>
      cases s with
      | str t =>
        simp only [pruneUserConfig, connectorForTelemetry, hc]
        split <;> simp
      | cfg c0 =>
        have hne := hconn c0 hc
        simp [pruneUserConfig, connectorForTelemetry, hc, hne]
  · intro env2 isCI store ci pr payload hmem
    by_cases h1 : store.alreadyRun = true <;>
      by_cases h2 : env2.configured = true <;>
      by_cases h3 : isCI = true <;>
      by_cases h4 : env2.promptAnswer = true <;>
      by_cases h5 : env2.enabled = true <;>
      simp [sendTelemetryIfEnabled, h1, h2, h3, h4, h5] at hmem <;>
      tauto

/-- Witness for C5: replacing the secret option payload of the concrete
configuration leaves the telemetry payload untouched. -/
theorem c5_witness :
    pruneUserConfig (setHintOptions ucC5 fun _ _ => "replaced") =
      pruneUserConfig ucC5 :=
  (c5_telemetry_payload_pruned ucC5 (fun _ _ => "replaced")
    (by intro c hc; simp [ucC5] at hc)).1

/-- C3: when the first construction attempt throws a ResourceError, the install
recovery asks exactly once; it runs no install on refusal, installs the missing
packages first and stops there when that install fails, and installs the
missing then the incompatible packages (the latter at latest) otherwise; the
recovery reports success exactly when the user accepted and both installs
succeeded; on failure the bootstrap rethrows the original error with no further
construction attempt, and on success it retries with the same configuration. -/
theorem c3_resource_recovery (env : BootEnv) (isCI : Bool) (ts : List Target)
    (fuel : Nat) (cfg : UserConfig) (e : AnalyzerError)
    (h : env.create 0 cfg = some e) (hs : e.status = .ResourceError) :
    ((askToInstallPackages env 0 e.resources).1 = false →
      getAnalyzer env isCI ts (fuel + 1) 0 cfg =
        (.errored (.analyzer e),
          .attemptCreate cfg :: (askToInstallPackages env 0 e.resources).2)) ∧
    ((askToInstallPackages env 0 e.resources).1 = true →
      (getAnalyzer env isCI ts (fuel + 1) 0 cfg).1 =
        (getAnalyzer env isCI ts fuel 1 cfg).1 ∧
      (getAnalyzer env isCI ts (fuel + 1) 0 cfg).2 =
        .attemptCreate cfg ::
          ((askToInstallPackages env 0 e.resources).2 ++
            (getAnalyzer env isCI ts fuel 1 cfg).2)) ∧
    ((askToInstallPackages env 0 e.resources).1 = true ↔
      (env.answerInstall 0 = true ∧
        env.installResult 0 (missingPackages e.resources) = true ∧
        env.installResult 0 (incompatiblePackages e.resources) = true)) ∧
    ((askToInstallPackages env 0 e.resources).2.count Event.promptInstall = 1) ∧
    (env.answerInstall 0 = false →
      (askToInstallPackages env 0 e.resources).2.filter isInstallEvent = []) ∧
    (env.answerInstall 0 = true →
      env.installResult 0 (missingPackages e.resources) = false →
      (askToInstallPackages env 0 e.resources).2.filter isInstallEvent =
        [.installPackagesCall (missingPackages e.resources)]) ∧
    (env.answerInstall 0 = true →
      env.installResult 0 (missingPackages e.resources) = true →
      (askToInstallPackages env 0 e.resources).2.filter isInstallEvent =
        [.installPackagesCall (missingPackages e.resources),
          .installPackagesCall (incompatiblePackages e.resources)]) := by
  refine ⟨?_, ?_, ?_, ?_, ?_, ?_, ?_⟩
  · intro ha
    exact getAnalyzer_resource_failed env isCI ts fuel 0 cfg e h hs ha
  · intro ha
    rw [getAnalyzer_resource_ok env isCI ts fuel 0 cfg e h hs ha]
    exact ⟨rfl, rfl⟩
  · by_cases h1 : env.answerInstall 0 = true <;>
      by_cases h2 : env.installResult 0 (missingPackages e.resources) = true <;>
      by_cases h3 : env.installResult 0 (incompatiblePackages e.resources) = true <;>
      simp [askToInstallPackages, h1, h2, h3]
  · by_cases h1 : env.answerInstall 0 = true <;>
      by_cases h2 : env.installResult 0 (missingPackages e.resources) = true <;>
      by_cases h3 : env.installResult 0 (incompatiblePackages e.resources) = true <;>
      by_cases h4 : e.resources.missing.length > 0 <;>
      by_cases h5 : e.resources.incompatible.length > 0 <;>
      simp [askToInstallPackages, h1, h2, h3, h4, h5, List.count_cons,
        List.count_append]
  · intro h1
    by_cases h4 : e.resources.missing.length > 0 <;>
      by_cases h5 : e.resources.incompatible.length > 0 <;>
      simp [askToInstallPackages, h1, h4, h5, isInstallEvent,
        List.filter_append]
  · intro h1 h2
    by_cases h4 : e.resources.missing.length > 0 <;>
      by_cases h5 : e.resources.incompatible.length > 0 <;>
      simp [askToInstallPackages, h1, h2, h4, h5, isInstallEvent,
        List.filter_append]
  · intro h1 h2
    by_cases h3 : env.installResult 0 (incompatiblePackages e.resources) = true <;>
      by_cases h4 : e.resources.missing.length > 0 <;>
      by_cases h5 : e.resources.incompatible.length > 0 <;>
      simp [askToInstallPackages, h1, h2, h3, h4, h5, isInstallEvent,
        List.filter_append]

/-- Witness for C3: with a refused install prompt, the bootstrap surfaces the
original ResourceError after exactly one construction attempt. -/
theorem c3_witness :
    getAnalyzer refuseInstallEnv false [tWeb] 2 0 emptyConfig =
      (.errored (.analyzer resErr),
        .attemptCreate emptyConfig ::
          (askToInstallPackages refuseInstallEnv 0 resErr.resources).2) :=
  (c3_resource_recovery refuseInstallEnv false [tWeb] 1 emptyConfig resErr
    rfl rfl).1 rfl

/-- C1 as amended: for every run that reaches the analysis phase (at least one
target, configuration resolution returned a configuration, and the bootstrap
returned a ready analyzer), the top-level analyze returns failure exactly when
some delivered end event carried an error-severity finding or the analyze call
threw; one error-severity finding among warnings is a failure, and only
non-error findings with no thrown exception is a success. -/
theorem c1_exit_status (env : RunEnv) (actions : CLIOptions) (store : ConfigStore)
    (uc cfg : UserConfig)
    (h1 : actions.targets.length ≠ 0)
    (h2 : (loadUserConfig env.config env.isCI actions actions.targets).1 = .ok uc)
    (h3 : (getAnalyzer env.boot env.isCI actions.targets env.fuel 0 uc).1 =
      .ready cfg) :
    (analyze env actions store).1 = .finished false ↔
      (env.targetEvents.any targetEventHasError = true ∨
        env.analyzeThrows = true) := by
  rw [analyze_ready env actions store uc cfg h1 h2 h3]
  by_cases ht : env.analyzeThrows = true
  · simp [runWithAnalyzer, ht]
  · by_cases hany : env.targetEvents.any targetEventHasError = true <;>
      simp [runWithAnalyzer, ht, hany, runReporter_exitCode,
        initialReporterState]

/-- Witness for C1: a run whose single end event carries an error finding is a
failure. -/
theorem c1_witness :
    (analyze errorFindingRunEnv { targets := [tWeb] } store0).1 =
      .finished false :=
  (c1_exit_status errorFindingRunEnv { targets := [tWeb] } store0 ucEn ucEn
    (by decide) rfl rfl).mpr (Or.inl (by decide))

/-- Counterexample for C1 as stated: a run with zero targets returns failure
although no target produced any finding and nothing threw, so failure is not
equivalent to (an error finding or a thrown exception) over all runs. -/
theorem c1_counterexample :
    (analyze baseRunEnv { targets := [] } store0).1 = .finished false ∧
    baseRunEnv.targetEvents.any targetEventHasError = false ∧
    baseRunEnv.analyzeThrows = false :=
  ⟨rfl, rfl, rfl⟩

/-- C8: on every run that reaches the analysis phase, the telemetry step runs
exactly once for the whole run when the analyze call completes (however many
targets were processed), and when the analyze call throws the run fails, no
telemetry-step action occurs at all, and (whenever progress indication is
active, that is outside debug mode) the spinner is stopped in the failed
state. -/
theorem c8_telemetry_once_after_run (env : RunEnv) (actions : CLIOptions)
    (store : ConfigStore) (uc cfg : UserConfig)
    (h1 : actions.targets.length ≠ 0)
    (h2 : (loadUserConfig env.config env.isCI actions actions.targets).1 = .ok uc)
    (h3 : (getAnalyzer env.boot env.isCI actions.targets env.fuel 0 uc).1 =
      .ready cfg) :
    (env.analyzeThrows = false →
      (analyze env actions store).2.2.count Event.telemetryGate = 1) ∧
    (env.analyzeThrows = true →
      (analyze env actions store).1 = .finished false ∧
      (analyze env actions store).2.2.filter isRunTelemetryEvent = [] ∧
      (actions.debug = false →
        Event.spinnerFail ∈ (analyze env actions store).2.2)) := by
  rw [analyze_ready env actions store uc cfg h1 h2 h3]
  have hlc := filter_runTel_load env.config env.isCI actions actions.targets
  have hboot := filter_runTel_boot env.boot env.isCI actions.targets env.fuel 0 uc
  have hrep := filter_runTel_reporter actions.debug env.targetEvents
    initialReporterState
  constructor
  · intro ht
    simp only [runWithAnalyzer, ht, Bool.false_eq_true, if_false,
      List.count_append]
    rw [count_zero_of_filter_runTel _ Event.telemetryGate rfl hlc,
      count_zero_of_filter_runTel _ Event.telemetryGate rfl hboot,
      count_zero_of_filter_runTel _ Event.telemetryGate rfl hrep,
      count_gate_send env.telemetry env.isCI store uc]
  · intro ht
    refine ⟨by simp [runWithAnalyzer, ht], ?_, ?_⟩
    · simp only [runWithAnalyzer, ht, if_true, List.filter_append, hlc, hboot,
        hrep, List.nil_append]
      cases hdbg : actions.debug <;> simp [isRunTelemetryEvent]
    · intro hdbg
      simp [runWithAnalyzer, ht, hdbg]

/-- Witness for C8: the baseline completed run emits the telemetry step exactly
once. -/
theorem c8_witness :
    (analyze baseRunEnv { targets := [tWeb] } store0).2.2.count
      Event.telemetryGate = 1 :=
  (c8_telemetry_once_after_run baseRunEnv { targets := [tWeb] } store0 ucEn ucEn
    (by decide) rfl rfl).1 rfl

/-- C10: the persistent first-run marker is untouched by every early-exiting
run: zero targets, a thrown configuration resolution, a failed bootstrap, and a
thrown analyze call all leave the store unchanged (and a thrown analyze call
additionally produces no telemetry-step action), so the next invocation is
still treated as a first run; only the telemetry step, which runs after a
completed analyze call, writes the marker. -/
theorem c10_store_frame (env : RunEnv) (actions : CLIOptions)
    (store : ConfigStore) :
    (actions.targets = [] → (analyze env actions store).2.1 = store) ∧
    (∀ e, (loadUserConfig env.config env.isCI actions actions.targets).1 =
        .error e →
      (analyze env actions store).2.1 = store) ∧
    (∀ uc e,
      (loadUserConfig env.config env.isCI actions actions.targets).1 = .ok uc →
      (getAnalyzer env.boot env.isCI actions.targets env.fuel 0 uc).1 =
        .errored e →
      (analyze env actions store).2.1 = store) ∧
    (∀ uc cfg,
      (loadUserConfig env.config env.isCI actions actions.targets).1 = .ok uc →
      (getAnalyzer env.boot env.isCI actions.targets env.fuel 0 uc).1 =
        .ready cfg →
      env.analyzeThrows = true →
      (analyze env actions store).2.1 = store ∧
      (analyze env actions store).2.2.filter isRunTelemetryEvent = []) := by
  refine ⟨?_, ?_, ?_, ?_⟩
  · intro h
    simp [analyze, h]
  · intro e he
    by_cases hlen : actions.targets.length = 0
    · simp [analyze, hlen]
    · simp [analyze, hlen, he]
  · intro uc e hok herr
    by_cases hlen : actions.targets.length = 0
    · simp [analyze, hlen]
    · simp [analyze, hlen, hok, herr]
  · intro uc cfg hok hready hthrow
    by_cases hlen : actions.targets.length = 0
    · simp [analyze, hlen]
    · rw [analyze_ready env actions store uc cfg hlen hok hready]
      refine ⟨by simp [runWithAnalyzer, hthrow], ?_⟩
      simp only [runWithAnalyzer, hthrow, if_true, List.filter_append,
        filter_runTel_load, filter_runTel_boot, filter_runTel_reporter,
        List.nil_append]
      cases hdbg : actions.debug <;> simp [isRunTelemetryEvent]

/-- Witness for C10: a run on which the analyze call throws leaves the
never-run store untouched. -/
theorem c10_witness :
    (analyze throwingRunEnv { targets := [tWeb] } store0).2.1 = store0 :=
  ((c10_store_frame throwingRunEnv { targets := [tWeb] } store0).2.2.2 ucEn ucEn
    rfl rfl rfl).1

end Webhint
